import Mathlib

/-!
Verification development for the ESP32 camera and audio relay server
(src/server.py). The server keeps, for each of two media streams (video,
audio), a latest-value slot holding the most recent uploaded payload and
the wall-clock time of that upload; stream generators repeatedly snapshot
the slot, classify freshness against a fixed expiry threshold, and emit
one framed unit per iteration; a status handler reports both slots and the
connection counters.

Embedding conventions:
- byte strings are `List Nat` (one entry per byte value);
- wall-clock times returned by `time.time()` are rationals `ℚ` (the claims
  under study concern order comparisons of times, not float rounding);
- each Flask handler, and each single iteration of a generator loop body,
  becomes a pure function from the global state plus the current time to
  its output and successor state;
- event strings are Lean `String`; literal braces and single quotes in
  them are written with escape codes.
-/

namespace Relay

/-- Raw byte payloads (request bodies, frames, audio chunks). -/
abbrev Bytes := List Nat

/-- Global mutable state of server.py: the two latest-value slots
(`current_frame`/`frame_time`, `current_audio`/`audio_time`) and the two
connection counters (server.py lines 39-44). -/
structure ServerState where
  current_frame : Option Bytes
  frame_time : ℚ
  current_audio : Option Bytes
  audio_time : ℚ
  clients_count : Int
  audio_clients_count : Int
deriving Repr, DecidableEq

/-- Initial state at process start: both slots unset, both times 0, both
counters 0 (server.py lines 39-44). -/
def initialState : ServerState :=
  { current_frame := none, frame_time := 0, current_audio := none,
    audio_time := 0, clients_count := 0, audio_clients_count := 0 }

/-- FRAME_EXPIRY_SECONDS = 10 (server.py line 27). -/
def FRAME_EXPIRY_SECONDS : ℚ := 10

/-- AUDIO_EXPIRY_SECONDS = 5 (server.py line 28). -/
def AUDIO_EXPIRY_SECONDS : ℚ := 5

/-- Freshness test both stream generators apply inline (server.py
lines 358 and 387): an item is fresh exactly when its age is strictly
below the expiry threshold. -/
def isFresh (age threshold : ℚ) : Bool :=
  decide (age < threshold)

/-- HTTP response: body text and numeric status code. -/
structure HttpResponse where
  body : String
  code : Nat
deriving Repr, DecidableEq

/-- POST /upload handler (server.py lines 315-328): an empty body
(`if not request.data`) is rejected with status 400 and no state change; a
non-empty body is stored into the video slot together with the current
time, and 200 is returned. -/
def upload (requestData : Bytes) (now : ℚ) (s : ServerState) :
    HttpResponse × ServerState :=
  if requestData = [] then
    ({ body := "No data", code := 400 }, s)
  else
    ({ body := "OK", code := 200 },
     { s with current_frame := some requestData, frame_time := now })

/-- POST /upload-audio handler (server.py lines 330-343): same shape as
`upload`, targeting the audio slot. -/
def upload_audio (requestData : Bytes) (now : ℚ) (s : ServerState) :
    HttpResponse × ServerState :=
  if requestData = [] then
    ({ body := "No data", code := 400 }, s)
  else
    ({ body := "OK", code := 200 },
     { s with current_audio := some requestData, audio_time := now })

/-- Byte rendering of an ASCII string literal. -/
def strBytes (t : String) : Bytes := t.toList.map Char.toNat

/-- Multipart delimiter plus content-type header emitted by every
iteration of gen_frames (server.py lines 359-364): the concatenation of
the two adjacent byte literals in the source. -/
def frameBoundaryHeader : Bytes :=
  strBytes "--frame\r\nContent-Type: image/jpeg\r\n\r\n"

/-- Trailing CRLF of each multipart part. -/
def crlf : Bytes := strBytes "\r\n"

/-- Snapshot of the video slot taken under the lock at the top of each
gen_frames iteration (server.py lines 353-355) and returned as the pair
(payload-or-none, timestamp): the get() operation of the video slot. -/
def frameGet (s : ServerState) : Option Bytes × ℚ :=
  (s.current_frame, s.frame_time)

/-- Snapshot of the audio slot taken under the lock at the top of each
gen_audio iteration (server.py lines 382-384): the get() operation of the
audio slot. -/
def audioGet (s : ServerState) : Option Bytes × ℚ :=
  (s.current_audio, s.audio_time)

/-- Loop body of gen_frames (server.py lines 352-367): snapshot the video
slot; if a frame exists and its age is strictly below
FRAME_EXPIRY_SECONDS, yield delimiter-header ++ frame ++ CRLF, otherwise
yield delimiter-header ++ CRLF (empty payload). The state is threaded
through explicitly; the body assigns no global. -/
def gen_frames_iter (now : ℚ) (s : ServerState) : Bytes × ServerState :=
  let snap := frameGet s
  match snap.1 with
  | some frame =>
      if isFresh (now - snap.2) FRAME_EXPIRY_SECONDS then
        (frameBoundaryHeader ++ frame ++ crlf, s)
      else
        (frameBoundaryHeader ++ crlf, s)
  | none => (frameBoundaryHeader ++ crlf, s)

/-- Base64 alphabet, in index order. -/
def base64Alphabet : List Char :=
  "ABCDEFGHIJKLMNOPQRSTUVWXYZabcdefghijklmnopqrstuvwxyz0123456789+/".toList

/-- Character of the base64 alphabet at a given 6-bit index. -/
def b64Char (n : Nat) : Char := base64Alphabet.getD n 'A'

/-- Standard base64 encoding with padding, as computed by
base64.b64encode (server.py line 388). -/
def base64Encode : Bytes → String
  | [] => ""
  | [a] =>
      String.mk [b64Char (a / 4), b64Char (a % 4 * 16), '=', '=']
  | [a, b] =>
      String.mk [b64Char (a / 4), b64Char (a % 4 * 16 + b / 16),
                 b64Char (b % 16 * 4), '=']
  | a :: b :: c :: rest =>
      String.mk [b64Char (a / 4), b64Char (a % 4 * 16 + b / 16),
                 b64Char (b % 16 * 4 + c / 64), b64Char (c % 64)] ++
        base64Encode rest

/-- Audio data event emitted by gen_audio when the chunk is fresh
(server.py line 389). The f-string in the source produces literal braces
and SINGLE-quoted keys and values around the base64 text; the braces and
single quotes are written here as the escapes \x7b, \x7d, \x27. -/
def audioDataEvent (b64 : String) : String :=
  "data: \x7b\x27audio\x27: \x27" ++ b64 ++ "\x27\x7d\n\n"

/-- Heartbeat event emitted by gen_audio when the chunk is absent or stale
(server.py line 392); it carries the current wall-clock time. Rendering of
the numeric timestamp is Lean textual rendering of the rational. -/
def heartbeatEvent (now : ℚ) : String :=
  "data: \x7b\x27heartbeat\x27: " ++ toString now ++ "\x7d\n\n"

/-- Double-quoted JSON audio event as required by section 6 of the spec
(`data: {"audio": "<base64>"}`, braces escaped here) and by the JSON.parse
call in the viewer page embedded in server.py (line 211). This definition
follows the SPEC text, for comparison against `audioDataEvent`. -/
def specJsonAudioEvent (b64 : String) : String :=
  "data: \x7b\"audio\": \"" ++ b64 ++ "\"\x7d\n\n"

/-- Loop body of gen_audio (server.py lines 381-395): snapshot the audio
slot; if a chunk exists and its age is strictly below
AUDIO_EXPIRY_SECONDS, yield the base64 data event, otherwise yield a
heartbeat carrying the current time. -/
def gen_audio_iter (now : ℚ) (s : ServerState) : String × ServerState :=
  let snap := audioGet s
  match snap.1 with
  | some audio =>
      if isFresh (now - snap.2) AUDIO_EXPIRY_SECONDS then
        (audioDataEvent (base64Encode audio), s)
      else
        (heartbeatEvent now, s)
  | none => (heartbeatEvent now, s)

/-- Python int() truncation toward zero of a rational (used on the frame
and audio ages in the offline texts of server.py lines 424 and 437). -/
def pyInt (q : ℚ) : Int := q.num.tdiv q.den

/-- Models datetime.datetime.fromtimestamp(t).strftime of server.py line
428. Wall-clock rendering is abstracted to a canonical textual form; the
claims inspect only the "Never" alternative of that field. -/
def fromtimestampHMS (t : ℚ) : String := "time " ++ toString t

/-- JSON payload of GET /status (server.py lines 441-447). -/
structure StatusSnapshot where
  status : String
  clients : Int
  audio_clients : Int
  last_frame : String
  audio_status : String
deriving Repr, DecidableEq

/-- GET /status handler (server.py lines 414-447). The source computes
frame_age as time.time() - frame_time when a frame exists and float(inf)
otherwise; the infinite branch is unreachable in the classification chain
because the first branch already tests has_frame, so the age subexpression
here is simply now - frame_time, used only under has_frame. Note the
offline tests use a strict GREATER-THAN against the thresholds. -/
def status (now : ℚ) (s : ServerState) : StatusSnapshot × ServerState :=
  let has_frame := s.current_frame.isSome
  let frame_age := now - s.frame_time
  let status_text :=
    if !has_frame then "No frames received yet"
    else if frame_age > FRAME_EXPIRY_SECONDS then
      "Camera offline (last frame " ++ toString (pyInt frame_age) ++ "s ago)"
    else "Online"
  let last_frame :=
    if has_frame then fromtimestampHMS s.frame_time else "Never"
  let has_audio := s.current_audio.isSome
  let audio_age := now - s.audio_time
  let audio_status :=
    if !has_audio then "No audio received yet"
    else if audio_age > AUDIO_EXPIRY_SECONDS then
      "Microphone offline (last audio " ++ toString (pyInt audio_age) ++ "s ago)"
    else "Receiving audio"
  ({ status := status_text, clients := s.clients_count,
     audio_clients := s.audio_clients_count,
     last_frame := last_frame, audio_status := audio_status }, s)

/-- Operations that touch the shared state, each carrying the wall-clock
time at which it runs: the two upload handlers, a status request, and one
iteration of either stream generator. -/
inductive Op where
  | uploadFrame (data : Bytes) (now : ℚ)
  | uploadAudio (data : Bytes) (now : ℚ)
  | statusReq (now : ℚ)
  | frameIter (now : ℚ)
  | audioIter (now : ℚ)
deriving Repr, DecidableEq

/-- State transition of a single operation (outputs discarded). -/
def applyOp (s : ServerState) : Op → ServerState
  | .uploadFrame d t => (upload d t s).2
  | .uploadAudio d t => (upload_audio d t s).2
  | .statusReq t => (status t s).2
  | .frameIter t => (gen_frames_iter t s).2
  | .audioIter t => (gen_audio_iter t s).2

/-- Run a sequence of operations left to right. -/
def applyOps (l : List Op) (s : ServerState) : ServerState :=
  l.foldl applyOp s

/-- Wall-clock time carried by an operation. -/
def opTime : Op → ℚ
  | .uploadFrame _ t => t
  | .uploadAudio _ t => t
  | .statusReq t => t
  | .frameIter t => t
  | .audioIter t => t

/-- True exactly for an operation that successfully writes the video slot:
a frame upload with a non-empty body. -/
def writesFrame : Op → Bool
  | .uploadFrame d _ => decide (d ≠ [])
  | _ => false

/-- True exactly for an operation that successfully writes the audio slot:
an audio upload with a non-empty body. -/
def writesAudio : Op → Bool
  | .uploadAudio d _ => decide (d ≠ [])
  | _ => false

/-- Cause that ends a stream session: the client closed the connection, or
a transport error surfaced during an in-flight write. -/
inductive TermCause where
  | clientClosed
  | transportError
deriving Repr, DecidableEq

/-- Connection-counter events recorded by a session. -/
inductive CounterEvent where
  | inc
  | dec
deriving Repr, DecidableEq

/-- Run n iterations of the gen_frames loop body at the given times,
collecting the yielded parts. -/
def iterFrames : List ℚ → ServerState → List Bytes × ServerState
  | [], s => ([], s)
  | t :: ts, s =>
      let step := gen_frames_iter t s
      let rest := iterFrames ts step.2
      (step.1 :: rest.1, rest.2)

/-- Run n iterations of the gen_audio loop body at the given times. -/
def iterAudio : List ℚ → ServerState → List String × ServerState
  | [], s => ([], s)
  | t :: ts, s =>
      let step := gen_audio_iter t s
      let rest := iterAudio ts step.2
      (step.1 :: rest.1, rest.2)

/-- Full lifecycle of one gen_frames session (server.py lines 345-372):
on entry the generator increments clients_count once; it then yields one
part per iteration until the transport ends the session; the try/finally
block decrements clients_count on every exit path, so the decrement runs
for both termination causes (generator close on client disconnect, and
exception propagation after a transport error), which the match makes a
case analysis. Returns the counter-event trace, the yielded parts and the
final state. -/
def runVideoSession (times : List ℚ) (cause : TermCause) (s : ServerState) :
    List CounterEvent × List Bytes × ServerState :=
  let sEnter := { s with clients_count := s.clients_count + 1 }
  let loop := iterFrames times sEnter
  let sExit := { loop.2 with clients_count := loop.2.clients_count - 1 }
  match cause with
  | .clientClosed => ([CounterEvent.inc, CounterEvent.dec], loop.1, sExit)
  | .transportError => ([CounterEvent.inc, CounterEvent.dec], loop.1, sExit)

/-- Full lifecycle of one gen_audio session (server.py lines 374-400),
mirroring `runVideoSession` on audio_clients_count. -/
def runAudioSession (times : List ℚ) (cause : TermCause) (s : ServerState) :
    List CounterEvent × List String × ServerState :=
  let sEnter := { s with audio_clients_count := s.audio_clients_count + 1 }
  let loop := iterAudio times sEnter
  let sExit := { loop.2 with audio_clients_count := loop.2.audio_clients_count - 1 }
  match cause with
  | .clientClosed => ([CounterEvent.inc, CounterEvent.dec], loop.1, sExit)
  | .transportError => ([CounterEvent.inc, CounterEvent.dec], loop.1, sExit)

/-! Shared helper lemmas. -/

/-- One gen_frames iteration assigns no global: the state comes back
unchanged. -/
lemma gen_frames_iter_state (now : ℚ) (s : ServerState) :
    (gen_frames_iter now s).2 = s := by
  unfold gen_frames_iter frameGet
  cases s.current_frame with
  | none => rfl
  | some f =>
      dsimp only
      split <;> rfl

/-- One gen_audio iteration assigns no global. -/
lemma gen_audio_iter_state (now : ℚ) (s : ServerState) :
    (gen_audio_iter now s).2 = s := by
  unfold gen_audio_iter audioGet
  cases s.current_audio with
  | none => rfl
  | some a =>
      dsimp only
      split <;> rfl

/-- The status handler assigns no global. -/
lemma status_state (now : ℚ) (s : ServerState) : (status now s).2 = s := rfl

/-- Two list concatenations differ when their left parts differ at an
index below both left lengths. -/
lemma append_ne_of_get_ne {α : Type} (p q x y : List α) (i : Nat)
    (hp : i < p.length) (hq : i < q.length)
    (hne : p.get ⟨i, hp⟩ ≠ q.get ⟨i, hq⟩) : p ++ x ≠ q ++ y := by
  intro h
  apply hne
  have h1 : (p ++ x)[i]? = (q ++ y)[i]? := by rw [h]
  rw [List.getElem?_append_left hp, List.getElem?_append_left hq] at h1
  rw [List.getElem?_eq_getElem hp, List.getElem?_eq_getElem hq] at h1
  simpa using h1

/-- A heartbeat event is never an audio data event: the two framings
differ at character index 8 (h versus a). -/
lemma heartbeatEvent_ne_audioDataEvent (now : ℚ) (b : String) :
    heartbeatEvent now ≠ audioDataEvent b := by
  intro h
  have hd := congrArg String.data h
  rw [heartbeatEvent, audioDataEvent, String.data_append, String.data_append,
    String.data_append, String.data_append, List.append_assoc,
    List.append_assoc] at hd
  exact append_ne_of_get_ne _ _ _ _ 8 (by decide) (by decide) (by decide) hd

/-- The camera-offline status text never coincides with Online: the
lengths differ whatever the rendered age. -/
lemma camera_offline_ne_online (k : String) :
    "Camera offline (last frame " ++ k ++ "s ago)" ≠ "Online" := by
  intro h
  have hl := congrArg String.length h
  rw [String.length_append, String.length_append] at hl
  have h1 : ("Camera offline (last frame " : String).length = 27 := rfl
  have h2 : ("s ago)" : String).length = 6 := rfl
  have h3 : ("Online" : String).length = 6 := rfl
  omega

/-- The camera-offline status text never coincides with the never-received
text. -/
lemma camera_offline_ne_noframes (k : String) :
    "Camera offline (last frame " ++ k ++ "s ago)" ≠ "No frames received yet" := by
  intro h
  have hl := congrArg String.length h
  rw [String.length_append, String.length_append] at hl
  have h1 : ("Camera offline (last frame " : String).length = 27 := rfl
  have h2 : ("s ago)" : String).length = 6 := rfl
  have h3 : ("No frames received yet" : String).length = 22 := rfl
  omega

/-- The microphone-offline status text never coincides with Receiving
audio. -/
lemma mic_offline_ne_receiving (k : String) :
    "Microphone offline (last audio " ++ k ++ "s ago)" ≠ "Receiving audio" := by
  intro h
  have hl := congrArg String.length h
  rw [String.length_append, String.length_append] at hl
  have h1 : ("Microphone offline (last audio " : String).length = 31 := rfl
  have h2 : ("s ago)" : String).length = 6 := rfl
  have h3 : ("Receiving audio" : String).length = 15 := rfl
  omega

/-- The microphone-offline status text never coincides with the
never-received text. -/
lemma mic_offline_ne_noaudio (k : String) :
    "Microphone offline (last audio " ++ k ++ "s ago)" ≠ "No audio received yet" := by
  intro h
  have hl := congrArg String.length h
  rw [String.length_append, String.length_append] at hl
  have h1 : ("Microphone offline (last audio " : String).length = 31 := rfl
  have h2 : ("s ago)" : String).length = 6 := rfl
  have h3 : ("No audio received yet" : String).length = 21 := rfl
  omega

/-- With a frame present, status reports Online exactly when the age does
not exceed the threshold (note: not-exceed, a non-strict comparison). -/
lemma status_online_iff (now : ℚ) (s : ServerState) (f : Bytes)
    (hf : s.current_frame = some f) :
    (status now s).1.status = "Online" ↔
      ¬ (now - s.frame_time > FRAME_EXPIRY_SECONDS) := by
  unfold status
  rw [hf]
  by_cases h : now - s.frame_time > FRAME_EXPIRY_SECONDS
  · simp only [Option.isSome_some, Bool.not_true, if_neg, Bool.false_eq_true,
      not_false_iff, if_pos h]
    exact ⟨fun hc => absurd hc (camera_offline_ne_online _), fun hc => absurd h hc⟩
  · simp only [Option.isSome_some, Bool.not_true, Bool.false_eq_true,
      if_false, if_neg h]
    exact ⟨fun _ => h, fun _ => trivial⟩

/-- With an audio chunk present, status reports Receiving audio exactly
when the age does not exceed the threshold. -/
lemma status_receiving_iff (now : ℚ) (s : ServerState) (a : Bytes)
    (ha : s.current_audio = some a) :
    (status now s).1.audio_status = "Receiving audio" ↔
      ¬ (now - s.audio_time > AUDIO_EXPIRY_SECONDS) := by
  unfold status
  rw [ha]
  by_cases h : now - s.audio_time > AUDIO_EXPIRY_SECONDS
  · simp only [Option.isSome_some, Bool.not_true, Bool.false_eq_true,
      if_false, if_pos h]
    exact ⟨fun hc => absurd hc (mic_offline_ne_receiving _), fun hc => absurd h hc⟩
  · simp only [Option.isSome_some, Bool.not_true, Bool.false_eq_true,
      if_false, if_neg h]
    exact ⟨fun _ => h, fun _ => trivial⟩

/-! Claim theorems. -/

/-- C2: the freshness classification applied by the stream generators is
exactly strict comparison of age against threshold; the boundary age
equal to threshold is stale; the video threshold is 10 seconds and the
audio threshold 5 seconds. -/
theorem staleness_policy_strict (a T : ℚ) :
    (isFresh a T = true ↔ a < T) ∧ isFresh T T = false ∧
    FRAME_EXPIRY_SECONDS = 10 ∧ AUDIO_EXPIRY_SECONDS = 5 := by
  refine ⟨?_, ?_, rfl, rfl⟩
  · simp [isFresh]
  · simp [isFresh]

/-- Witness for C2 at age 3 and threshold 10. -/
theorem staleness_policy_strict_witness :
    (isFresh 3 10 = true ↔ (3 : ℚ) < 10) ∧ isFresh 10 10 = false ∧
    FRAME_EXPIRY_SECONDS = 10 ∧ AUDIO_EXPIRY_SECONDS = 5 :=
  staleness_policy_strict 3 10

/-- C3: an upload with an empty body returns the 400 response and leaves
the whole server state untouched, on both slots; a non-empty body returns
the 200 response and stores exactly the payload with the current time into
the targeted slot. -/
theorem upload_empty_rejected_nonempty_stored (d : Bytes) (now : ℚ)
    (s : ServerState) :
    (d = [] →
      upload d now s = ({ body := "No data", code := 400 }, s) ∧
      upload_audio d now s = ({ body := "No data", code := 400 }, s)) ∧
    (d ≠ [] →
      upload d now s =
        ({ body := "OK", code := 200 },
         { s with current_frame := some d, frame_time := now }) ∧
      upload_audio d now s =
        ({ body := "OK", code := 200 },
         { s with current_audio := some d, audio_time := now })) := by
  constructor
  · intro h
    subst h
    exact ⟨rfl, rfl⟩
  · intro h
    rw [upload, upload_audio, if_neg h, if_neg h]
    exact ⟨rfl, rfl⟩

/-- Witness for C3: the empty body at time 1 changes nothing and answers
400; the body [7] at time 2 is stored. -/
theorem upload_empty_rejected_nonempty_stored_witness :
    upload [] 1 initialState = ({ body := "No data", code := 400 }, initialState) ∧
    upload [7] 2 initialState =
      ({ body := "OK", code := 200 },
       { initialState with current_frame := some [7], frame_time := 2 }) :=
  ⟨((upload_empty_rejected_nonempty_stored [] 1 initialState).1 rfl).1,
   ((upload_empty_rejected_nonempty_stored [7] 2 initialState).2 (by decide)).1⟩

/-- C9: the status handler and single iterations of both stream
generators are read-only on the shared state: every slot field and both
connection counters come back unchanged. -/
theorem handlers_read_only (now : ℚ) (s : ServerState) :
    (status now s).2 = s ∧ (gen_frames_iter now s).2 = s ∧
    (gen_audio_iter now s).2 = s :=
  ⟨status_state now s, gen_frames_iter_state now s, gen_audio_iter_state now s⟩

/-- C4: every gen_frames iteration yields delimiter plus content-type
header, then the stored frame when one exists and is fresh, then CRLF;
when the slot is unset or the frame is stale the payload between
delimiter-header and CRLF is empty. -/
theorem gen_frames_part_shape (now : ℚ) (s : ServerState) :
    (∃ f, s.current_frame = some f ∧
        isFresh (now - s.frame_time) FRAME_EXPIRY_SECONDS = true ∧
        (gen_frames_iter now s).1 = frameBoundaryHeader ++ f ++ crlf) ∨
    ((s.current_frame = none ∨
        isFresh (now - s.frame_time) FRAME_EXPIRY_SECONDS = false) ∧
      (gen_frames_iter now s).1 = frameBoundaryHeader ++ crlf) := by
  unfold gen_frames_iter frameGet
  cases hc : s.current_frame with
  | none => exact Or.inr ⟨Or.inl rfl, rfl⟩
  | some f =>
      dsimp only
      by_cases h : isFresh (now - s.frame_time) FRAME_EXPIRY_SECONDS = true
      · rw [if_pos h]
        exact Or.inl ⟨f, rfl, h, rfl⟩
      · rw [if_neg h]
        exact Or.inr ⟨Or.inr (Bool.not_eq_true _ ▸ h), rfl⟩

/-- C8: while the audio slot has never been set, every status request
reports the text No audio received yet, and every gen_audio iteration
yields exactly the heartbeat event for its current time — which is never
an audio data event, whatever base64 text such an event would carry. -/
theorem audio_never_set_heartbeats (nowStat nowGen : ℚ) (s : ServerState)
    (h : s.current_audio = none) :
    (status nowStat s).1.audio_status = "No audio received yet" ∧
    (gen_audio_iter nowGen s).1 = heartbeatEvent nowGen ∧
    ∀ b, (gen_audio_iter nowGen s).1 ≠ audioDataEvent b := by
  refine ⟨?_, ?_, ?_⟩
  · unfold status
    rw [h]
    rfl
  · unfold gen_audio_iter audioGet
    rw [h]
  · intro b
    unfold gen_audio_iter audioGet
    rw [h]
    exact heartbeatEvent_ne_audioDataEvent nowGen b

/-- Witness for C8 in the initial state, status at time 7 and a generator
iteration at time 5. -/
theorem audio_never_set_heartbeats_witness :
    (status 7 initialState).1.audio_status = "No audio received yet" ∧
    (gen_audio_iter 5 initialState).1 = heartbeatEvent 5 ∧
    ∀ b, (gen_audio_iter 5 initialState).1 ≠ audioDataEvent b :=
  audio_never_set_heartbeats 7 5 initialState rfl

/-- C5 evaluated at a concrete failing input: with the one-byte audio
chunk 0x00 stored at time 1 and read at time 1 (age 0, fresh), gen_audio
emits the single-quoted event data: \x7b\x27audio\x27: \x27AA==\x27\x7d
followed by two newlines, which differs from the double-quoted JSON
framing data: \x7b"audio": "AA=="\x7d that section 6 of the spec requires
and that the JSON.parse call of the viewer page embedded in server.py
expects. -/
theorem gen_audio_single_quote_event :
    (gen_audio_iter 1
        { initialState with current_audio := some [0], audio_time := 1 }).1
      = "data: \x7b\x27audio\x27: \x27AA==\x27\x7d\n\n" ∧
    specJsonAudioEvent "AA==" = "data: \x7b\"audio\": \"AA==\"\x7d\n\n" ∧
    (gen_audio_iter 1
        { initialState with current_audio := some [0], audio_time := 1 }).1
      ≠ specJsonAudioEvent "AA==" := by
  have hg : isFresh ((1 : ℚ) - 1) AUDIO_EXPIRY_SECONDS = true := by
    simp only [isFresh, AUDIO_EXPIRY_SECONDS, decide_eq_true_eq]
    norm_num
  have he : (gen_audio_iter 1
      { initialState with current_audio := some [0], audio_time := 1 }).1
      = audioDataEvent (base64Encode [0]) := by
    unfold gen_audio_iter audioGet
    dsimp only
    rw [if_pos hg]
  rw [he]
  refine ⟨by decide, rfl, by decide⟩

/-- Running several gen_frames iterations leaves the state unchanged. -/
lemma iterFrames_state (ts : List ℚ) (s : ServerState) :
    (iterFrames ts s).2 = s := by
  induction ts generalizing s with
  | nil => rfl
  | cons t ts ih =>
      unfold iterFrames
      dsimp only
      rw [gen_frames_iter_state, ih]

/-- Running several gen_audio iterations leaves the state unchanged. -/
lemma iterAudio_state (ts : List ℚ) (s : ServerState) :
    (iterAudio ts s).2 = s := by
  induction ts generalizing s with
  | nil => rfl
  | cons t ts ih =>
      unfold iterAudio
      dsimp only
      rw [gen_audio_iter_state, ih]

/-- C7: every stream session records exactly one increment and exactly one
decrement of its connection counter, on both termination causes (client
close, transport error during a write), and its net effect on that counter
is zero; this holds for the video session on clients_count and for the
audio session on audio_clients_count. -/
theorem session_counter_balanced (times : List ℚ) (cause : TermCause)
    (s : ServerState) :
    ((runVideoSession times cause s).1.count CounterEvent.inc = 1 ∧
     (runVideoSession times cause s).1.count CounterEvent.dec = 1 ∧
     (runVideoSession times cause s).2.2.clients_count = s.clients_count) ∧
    ((runAudioSession times cause s).1.count CounterEvent.inc = 1 ∧
     (runAudioSession times cause s).1.count CounterEvent.dec = 1 ∧
     (runAudioSession times cause s).2.2.audio_clients_count
        = s.audio_clients_count) := by
  cases cause <;>
    · unfold runVideoSession runAudioSession
      dsimp only
      rw [iterFrames_state, iterAudio_state]
      refine ⟨⟨by decide, by decide, ?_⟩, by decide, by decide, ?_⟩ <;>
        · dsimp only
          omega

/-- An operation that is not a successful frame upload leaves the video
slot (payload and timestamp) untouched. -/
lemma applyOp_preserves_frame (s : ServerState) (op : Op)
    (h : writesFrame op = false) :
    (applyOp s op).current_frame = s.current_frame ∧
    (applyOp s op).frame_time = s.frame_time := by
  cases op with
  | uploadFrame d t =>
      have hd : d = [] := by
        by_contra hd
        simp [writesFrame, hd] at h
      subst hd
      exact ⟨rfl, rfl⟩
  | uploadAudio d t =>
      by_cases hd : d = []
      · subst hd
        exact ⟨rfl, rfl⟩
      · unfold applyOp upload_audio
        dsimp only
        rw [if_neg hd]
        exact ⟨rfl, rfl⟩
  | statusReq t => exact ⟨rfl, rfl⟩
  | frameIter t =>
      unfold applyOp
      dsimp only
      rw [gen_frames_iter_state]
      exact ⟨rfl, rfl⟩
  | audioIter t =>
      unfold applyOp
      dsimp only
      rw [gen_audio_iter_state]
      exact ⟨rfl, rfl⟩

/-- An operation that is not a successful audio upload leaves the audio
slot untouched. -/
lemma applyOp_preserves_audio (s : ServerState) (op : Op)
    (h : writesAudio op = false) :
    (applyOp s op).current_audio = s.current_audio ∧
    (applyOp s op).audio_time = s.audio_time := by
  cases op with
  | uploadAudio d t =>
      have hd : d = [] := by
        by_contra hd
        simp [writesAudio, hd] at h
      subst hd
      exact ⟨rfl, rfl⟩
  | uploadFrame d t =>
      by_cases hd : d = []
      · subst hd
        exact ⟨rfl, rfl⟩
      · unfold applyOp upload
        dsimp only
        rw [if_neg hd]
        exact ⟨rfl, rfl⟩
  | statusReq t => exact ⟨rfl, rfl⟩
  | frameIter t =>
      unfold applyOp
      dsimp only
      rw [gen_frames_iter_state]
      exact ⟨rfl, rfl⟩
  | audioIter t =>
      unfold applyOp
      dsimp only
      rw [gen_audio_iter_state]
      exact ⟨rfl, rfl⟩

/-- A sequence of operations containing no successful frame upload leaves
the video slot untouched. -/
lemma applyOps_preserves_frame (l : List Op) (s : ServerState)
    (h : ∀ op ∈ l, writesFrame op = false) :
    (applyOps l s).current_frame = s.current_frame ∧
    (applyOps l s).frame_time = s.frame_time := by
  induction l generalizing s with
  | nil => exact ⟨rfl, rfl⟩
  | cons op l ih =>
      have h1 := applyOp_preserves_frame s op (h op (by simp))
      have h2 := ih (applyOp s op) (fun o ho => h o (by simp [ho]))
      rw [applyOps, List.foldl_cons]
      exact ⟨h2.1.trans h1.1, h2.2.trans h1.2⟩

/-- A sequence of operations containing no successful audio upload leaves
the audio slot untouched. -/
lemma applyOps_preserves_audio (l : List Op) (s : ServerState)
    (h : ∀ op ∈ l, writesAudio op = false) :
    (applyOps l s).current_audio = s.current_audio ∧
    (applyOps l s).audio_time = s.audio_time := by
  induction l generalizing s with
  | nil => exact ⟨rfl, rfl⟩
  | cons op l ih =>
      have h1 := applyOp_preserves_audio s op (h op (by simp))
      have h2 := ih (applyOp s op) (fun o ho => h o (by simp [ho]))
      rw [applyOps, List.foldl_cons]
      exact ⟨h2.1.trans h1.1, h2.2.trans h1.2⟩

/-- C1: after a successful set of a non-empty payload on a slot, the
snapshot read by the stream generators and the status handler returns
exactly that payload with the time recorded at the set, across any
sequence of later operations none of which is a successful set of the SAME
slot — successful uploads to the other slot, rejected empty uploads,
status requests and generator iterations may all be interleaved; since the
starting state is arbitrary, the set observed is always the last one to
complete on that slot (last-write-wins). The two slots are treated
independently, each over its own arbitrary operation sequence. -/
theorem slot_last_write_wins (P Q : Bytes) (t u : ℚ) (sv sa : ServerState)
    (lf la : List Op) (hP : P ≠ []) (hQ : Q ≠ [])
    (hlf : ∀ op ∈ lf, writesFrame op = false)
    (hla : ∀ op ∈ la, writesAudio op = false) :
    frameGet (applyOps lf (upload P t sv).2) = (some P, t) ∧
    audioGet (applyOps la (upload_audio Q u sa).2) = (some Q, u) := by
  constructor
  · have h := applyOps_preserves_frame lf (upload P t sv).2 hlf
    have hset : (upload P t sv).2.current_frame = some P ∧
        (upload P t sv).2.frame_time = t := by
      unfold upload
      rw [if_neg hP]
      exact ⟨rfl, rfl⟩
    unfold frameGet
    rw [h.1, h.2, hset.1, hset.2]
  · have h := applyOps_preserves_audio la (upload_audio Q u sa).2 hla
    have hset : (upload_audio Q u sa).2.current_audio = some Q ∧
        (upload_audio Q u sa).2.audio_time = u := by
      unfold upload_audio
      rw [if_neg hQ]
      exact ⟨rfl, rfl⟩
    unfold audioGet
    rw [h.1, h.2, hset.1, hset.2]

/-- Witness for C1: payload [1] set on the video slot at time 1 survives a
later SUCCESSFUL audio upload at time 3, a status request and a rejected
empty frame upload; payload [2] set on the audio slot at time 2 survives a
later SUCCESSFUL frame upload at time 3, a generator iteration and a
rejected empty audio upload. -/
theorem slot_last_write_wins_witness :
    frameGet (applyOps [Op.uploadAudio [9] 3, Op.statusReq 4, Op.uploadFrame [] 5]
        (upload [1] 1 initialState).2) = (some [1], 1) ∧
    audioGet (applyOps [Op.uploadFrame [7] 3, Op.audioIter 4, Op.uploadAudio [] 5]
        (upload_audio [2] 2 initialState).2) = (some [2], 2) :=
  slot_last_write_wins [1] [2] 1 2 initialState initialState
    [Op.uploadAudio [9] 3, Op.statusReq 4, Op.uploadFrame [] 5]
    [Op.uploadFrame [7] 3, Op.audioIter 4, Op.uploadAudio [] 5]
    (by decide) (by decide) (by decide) (by decide)

/-- With a fresh frame stored, the generator yields the full part. -/
lemma gen_frames_iter_fresh (now : ℚ) (s : ServerState) (f : Bytes)
    (hf : s.current_frame = some f)
    (h : isFresh (now - s.frame_time) FRAME_EXPIRY_SECONDS = true) :
    (gen_frames_iter now s).1 = frameBoundaryHeader ++ f ++ crlf := by
  unfold gen_frames_iter frameGet
  rw [hf]
  dsimp only
  rw [if_pos h]

/-- With a stale frame stored, the generator yields the empty part. -/
lemma gen_frames_iter_stale (now : ℚ) (s : ServerState) (f : Bytes)
    (hf : s.current_frame = some f)
    (h : isFresh (now - s.frame_time) FRAME_EXPIRY_SECONDS = false) :
    (gen_frames_iter now s).1 = frameBoundaryHeader ++ crlf := by
  unfold gen_frames_iter frameGet
  rw [hf]
  dsimp only
  rw [if_neg (by rw [h]; exact Bool.false_ne_true)]

/-- A part carrying a non-empty frame differs from the empty part. -/
lemma frame_part_ne_empty_part (f : Bytes) (hf : f ≠ []) :
    frameBoundaryHeader ++ f ++ crlf ≠ frameBoundaryHeader ++ crlf := by
  intro h
  apply hf
  have hl := congrArg List.length h
  simp only [List.length_append] at hl
  have hzero : f.length = 0 := by omega
  exact List.length_eq_zero.mp hzero

/-- State with one frame stored at time 0, used at the boundary age. -/
def boundaryState : ServerState :=
  { current_frame := some [255, 216], frame_time := 0, current_audio := none,
    audio_time := 0, clients_count := 0, audio_clients_count := 0 }

/-- C6 counterexample: with a frame stored at time 0 and both handlers
evaluated at time 10 — age exactly FRAME_EXPIRY_SECONDS — the video
generator classifies the frame stale and yields the empty part, while the
status handler still reports Online. The freshness judgment of the stream
producers and that of the status aggregator therefore disagree at the
boundary age = threshold, contrary to the claim. -/
theorem stream_vs_status_boundary_counterexample :
    (gen_frames_iter 10 boundaryState).1 = frameBoundaryHeader ++ crlf ∧
    (status 10 boundaryState).1.status = "Online" := by
  constructor
  · refine gen_frames_iter_stale 10 boundaryState [255, 216] rfl ?_
    have hb : boundaryState.frame_time = 0 := rfl
    rw [hb]
    simp only [isFresh, FRAME_EXPIRY_SECONDS, decide_eq_false_iff_not, not_lt]
    norm_num
  · refine (status_online_iff 10 boundaryState [255, 216] rfl).mpr ?_
    have hb : boundaryState.frame_time = 0 := rfl
    rw [hb, FRAME_EXPIRY_SECONDS]
    norm_num

/-- C6 (amended): the stream generators classify an item fresh exactly
when age < threshold, while the status aggregator reports non-offline
exactly when age ≤ threshold; the two judgments therefore coincide at
every age other than the boundary age = threshold, and at the boundary the
generators classify the item stale while status still reports Online
(video) or Receiving audio (audio). -/
theorem stream_vs_status_freshness_amended (now : ℚ) (s : ServerState)
    (f a : Bytes) (hf : s.current_frame = some f) (hfne : f ≠ [])
    (ha : s.current_audio = some a) :
    (now - s.frame_time ≠ FRAME_EXPIRY_SECONDS →
      (isFresh (now - s.frame_time) FRAME_EXPIRY_SECONDS = true ↔
        (status now s).1.status = "Online")) ∧
    (now - s.frame_time ≠ FRAME_EXPIRY_SECONDS →
      ((gen_frames_iter now s).1 ≠ frameBoundaryHeader ++ crlf ↔
        (status now s).1.status = "Online")) ∧
    (now - s.audio_time ≠ AUDIO_EXPIRY_SECONDS →
      (isFresh (now - s.audio_time) AUDIO_EXPIRY_SECONDS = true ↔
        (status now s).1.audio_status = "Receiving audio")) ∧
    (now - s.frame_time = FRAME_EXPIRY_SECONDS →
      isFresh (now - s.frame_time) FRAME_EXPIRY_SECONDS = false ∧
      (status now s).1.status = "Online") ∧
    (now - s.audio_time = AUDIO_EXPIRY_SECONDS →
      isFresh (now - s.audio_time) AUDIO_EXPIRY_SECONDS = false ∧
      (status now s).1.audio_status = "Receiving audio") := by
  have hvid : now - s.frame_time ≠ FRAME_EXPIRY_SECONDS →
      (isFresh (now - s.frame_time) FRAME_EXPIRY_SECONDS = true ↔
        (status now s).1.status = "Online") := by
    intro hne
    rw [status_online_iff now s f hf]
    simp only [isFresh, decide_eq_true_eq, gt_iff_lt, not_lt]
    exact ⟨le_of_lt, fun hle => lt_of_le_of_ne hle hne⟩
  refine ⟨hvid, ?_, ?_, ?_, ?_⟩
  · intro hne
    rw [← hvid hne]
    cases hfresh : isFresh (now - s.frame_time) FRAME_EXPIRY_SECONDS with
    | true =>
        rw [gen_frames_iter_fresh now s f hf hfresh]
        simp only [iff_true]
        exact fun hc => absurd hc (frame_part_ne_empty_part f hfne)
    | false =>
        rw [gen_frames_iter_stale now s f hf hfresh]
        simp only [Bool.false_eq_true, iff_false, ne_eq, not_not]
  · intro hne
    rw [status_receiving_iff now s a ha]
    simp only [isFresh, decide_eq_true_eq, gt_iff_lt, not_lt]
    exact ⟨le_of_lt, fun hle => lt_of_le_of_ne hle hne⟩
  · intro heq
    constructor
    · rw [heq]
      simp [isFresh]
    · exact (status_online_iff now s f hf).mpr (by rw [heq]; exact lt_irrefl _)
  · intro heq
    constructor
    · rw [heq]
      simp [isFresh]
    · exact (status_receiving_iff now s a ha).mpr (by rw [heq]; exact lt_irrefl _)

/-- Witness for C6 (amended) at time 3 with both slots set at time 0. -/
theorem stream_vs_status_freshness_amended_witness :
    (let s0 : ServerState :=
      { current_frame := some [1], frame_time := 0, current_audio := some [2],
        audio_time := 0, clients_count := 0, audio_clients_count := 0 }
     (3 - s0.frame_time ≠ FRAME_EXPIRY_SECONDS →
       (isFresh (3 - s0.frame_time) FRAME_EXPIRY_SECONDS = true ↔
         (status 3 s0).1.status = "Online")) ∧
     (3 - s0.frame_time ≠ FRAME_EXPIRY_SECONDS →
       ((gen_frames_iter 3 s0).1 ≠ frameBoundaryHeader ++ crlf ↔
         (status 3 s0).1.status = "Online")) ∧
     (3 - s0.audio_time ≠ AUDIO_EXPIRY_SECONDS →
       (isFresh (3 - s0.audio_time) AUDIO_EXPIRY_SECONDS = true ↔
         (status 3 s0).1.audio_status = "Receiving audio")) ∧
     (3 - s0.frame_time = FRAME_EXPIRY_SECONDS →
       isFresh (3 - s0.frame_time) FRAME_EXPIRY_SECONDS = false ∧
       (status 3 s0).1.status = "Online") ∧
     (3 - s0.audio_time = AUDIO_EXPIRY_SECONDS →
       isFresh (3 - s0.audio_time) AUDIO_EXPIRY_SECONDS = false ∧
       (status 3 s0).1.audio_status = "Receiving audio")) :=
  stream_vs_status_freshness_amended 3 _ [1] [2] rfl (by decide) rfl

/-- No operation can clear a set video slot. -/
lemma applyOp_frame_isSome (s : ServerState) (op : Op)
    (h : s.current_frame.isSome = true) :
    (applyOp s op).current_frame.isSome = true := by
  cases op with
  | uploadFrame d t =>
      unfold applyOp upload
      dsimp only
      by_cases hd : d = []
      · rw [if_pos hd]
        exact h
      · rw [if_neg hd]
        rfl
  | uploadAudio d t =>
      unfold applyOp upload_audio
      dsimp only
      by_cases hd : d = []
      · rw [if_pos hd]
        exact h
      · rw [if_neg hd]
        exact h
  | statusReq t => exact h
  | frameIter t =>
      unfold applyOp
      dsimp only
      rw [gen_frames_iter_state]
      exact h
  | audioIter t =>
      unfold applyOp
      dsimp only
      rw [gen_audio_iter_state]
      exact h

/-- No operation can clear a set audio slot. -/
lemma applyOp_audio_isSome (s : ServerState) (op : Op)
    (h : s.current_audio.isSome = true) :
    (applyOp s op).current_audio.isSome = true := by
  cases op with
  | uploadFrame d t =>
      unfold applyOp upload
      dsimp only
      by_cases hd : d = []
      · rw [if_pos hd]
        exact h
      · rw [if_neg hd]
        exact h
  | uploadAudio d t =>
      unfold applyOp upload_audio
      dsimp only
      by_cases hd : d = []
      · rw [if_pos hd]
        exact h
      · rw [if_neg hd]
        rfl
  | statusReq t => exact h
  | frameIter t =>
      unfold applyOp
      dsimp only
      rw [gen_frames_iter_state]
      exact h
  | audioIter t =>
      unfold applyOp
      dsimp only
      rw [gen_audio_iter_state]
      exact h

/-- After one operation the stored frame timestamp is either unchanged or
the wall-clock time of that operation. -/
lemma applyOp_frame_time_cases (s : ServerState) (op : Op) :
    (applyOp s op).frame_time = s.frame_time ∨
    (applyOp s op).frame_time = opTime op := by
  cases op with
  | uploadFrame d t =>
      unfold applyOp upload
      dsimp only
      by_cases hd : d = []
      · rw [if_pos hd]
        exact Or.inl rfl
      · rw [if_neg hd]
        exact Or.inr rfl
  | uploadAudio d t =>
      unfold applyOp upload_audio
      dsimp only
      by_cases hd : d = []
      · rw [if_pos hd]
        exact Or.inl rfl
      · rw [if_neg hd]
        exact Or.inl rfl
  | statusReq t => exact Or.inl rfl
  | frameIter t =>
      unfold applyOp
      dsimp only
      rw [gen_frames_iter_state]
      exact Or.inl rfl
  | audioIter t =>
      unfold applyOp
      dsimp only
      rw [gen_audio_iter_state]
      exact Or.inl rfl

/-- After one operation the stored audio timestamp is either unchanged or
the wall-clock time of that operation. -/
lemma applyOp_audio_time_cases (s : ServerState) (op : Op) :
    (applyOp s op).audio_time = s.audio_time ∨
    (applyOp s op).audio_time = opTime op := by
  cases op with
  | uploadFrame d t =>
      unfold applyOp upload
      dsimp only
      by_cases hd : d = []
      · rw [if_pos hd]
        exact Or.inl rfl
      · rw [if_neg hd]
        exact Or.inl rfl
  | uploadAudio d t =>
      unfold applyOp upload_audio
      dsimp only
      by_cases hd : d = []
      · rw [if_pos hd]
        exact Or.inl rfl
      · rw [if_neg hd]
        exact Or.inr rfl
  | statusReq t => exact Or.inl rfl
  | frameIter t =>
      unfold applyOp
      dsimp only
      rw [gen_frames_iter_state]
      exact Or.inl rfl
  | audioIter t =>
      unfold applyOp
      dsimp only
      rw [gen_audio_iter_state]
      exact Or.inl rfl

/-- Under non-decreasing wall-clock times, a set video slot stays set and
its timestamp never decreases. -/
lemma applyOps_frame_mono (l : List Op) (s : ServerState)
    (hs : s.current_frame.isSome = true)
    (hch : List.Chain' (· ≤ ·) (s.frame_time :: l.map opTime)) :
    (applyOps l s).current_frame.isSome = true ∧
    s.frame_time ≤ (applyOps l s).frame_time := by
  induction l generalizing s with
  | nil => exact ⟨hs, le_refl _⟩
  | cons op l ih =>
      rw [List.map_cons, List.chain'_cons'] at hch
      have h1 : s.frame_time ≤ opTime op := hch.1 (opTime op) rfl
      have hch2 := hch.2
      rw [List.chain'_cons'] at hch2
      have hle : (applyOp s op).frame_time ≤ opTime op ∧
          s.frame_time ≤ (applyOp s op).frame_time := by
        rcases applyOp_frame_time_cases s op with h | h
        · rw [h]
          exact ⟨h1, le_refl _⟩
        · rw [h]
          exact ⟨le_refl _, h1⟩
      have hch' : List.Chain' (· ≤ ·) ((applyOp s op).frame_time :: l.map opTime) := by
        rw [List.chain'_cons']
        exact ⟨fun y hy => le_trans hle.1 (hch2.1 y hy), hch2.2⟩
      have hres := ih (applyOp s op) (applyOp_frame_isSome s op hs) hch'
      rw [applyOps, List.foldl_cons]
      exact ⟨hres.1, le_trans hle.2 hres.2⟩

/-- Under non-decreasing wall-clock times, a set audio slot stays set and
its timestamp never decreases. -/
lemma applyOps_audio_mono (l : List Op) (s : ServerState)
    (hs : s.current_audio.isSome = true)
    (hch : List.Chain' (· ≤ ·) (s.audio_time :: l.map opTime)) :
    (applyOps l s).current_audio.isSome = true ∧
    s.audio_time ≤ (applyOps l s).audio_time := by
  induction l generalizing s with
  | nil => exact ⟨hs, le_refl _⟩
  | cons op l ih =>
      rw [List.map_cons, List.chain'_cons'] at hch
      have h1 : s.audio_time ≤ opTime op := hch.1 (opTime op) rfl
      have hch2 := hch.2
      rw [List.chain'_cons'] at hch2
      have hle : (applyOp s op).audio_time ≤ opTime op ∧
          s.audio_time ≤ (applyOp s op).audio_time := by
        rcases applyOp_audio_time_cases s op with h | h
        · rw [h]
          exact ⟨h1, le_refl _⟩
        · rw [h]
          exact ⟨le_refl _, h1⟩
      have hch' : List.Chain' (· ≤ ·) ((applyOp s op).audio_time :: l.map opTime) := by
        rw [List.chain'_cons']
        exact ⟨fun y hy => le_trans hle.1 (hch2.1 y hy), hch2.2⟩
      have hres := ih (applyOp s op) (applyOp_audio_isSome s op hs) hch'
      rw [applyOps, List.foldl_cons]
      exact ⟨hres.1, le_trans hle.2 hres.2⟩

/-- With a frame present, the status text is never the never-received
text. -/
lemma status_ne_noframes (now : ℚ) (s : ServerState)
    (h : s.current_frame.isSome = true) :
    (status now s).1.status ≠ "No frames received yet" := by
  unfold status
  by_cases hA : now - s.frame_time > FRAME_EXPIRY_SECONDS
  · simp only [h, Bool.not_true, Bool.false_eq_true, if_false, if_pos hA]
    exact camera_offline_ne_noframes _
  · simp only [h, Bool.not_true, Bool.false_eq_true, if_false, if_neg hA]
    decide

/-- With an audio chunk present, the audio status text is never the
never-received text. -/
lemma status_ne_noaudio (now : ℚ) (s : ServerState)
    (h : s.current_audio.isSome = true) :
    (status now s).1.audio_status ≠ "No audio received yet" := by
  unfold status
  by_cases hA : now - s.audio_time > AUDIO_EXPIRY_SECONDS
  · simp only [h, Bool.not_true, Bool.false_eq_true, if_false, if_pos hA]
    exact mic_offline_ne_noaudio _
  · simp only [h, Bool.not_true, Bool.false_eq_true, if_false, if_neg hA]
    decide

/-- C10: once a slot has been set it never returns to the never-set
state. Across any operation sequence whose wall-clock times are
non-decreasing and no earlier than the stored timestamp (time.time() is
non-decreasing in the intended runs), the payload stays present, the
stored timestamp never decreases, and the status classification can never
again be the never-received text; symmetrically for the audio slot. -/
theorem slot_once_set_stays_set (s : ServerState) (l : List Op) :
    (s.current_frame.isSome = true →
      List.Chain' (· ≤ ·) (s.frame_time :: l.map opTime) →
      (applyOps l s).current_frame.isSome = true ∧
      s.frame_time ≤ (applyOps l s).frame_time ∧
      ∀ now, (status now (applyOps l s)).1.status ≠ "No frames received yet") ∧
    (s.current_audio.isSome = true →
      List.Chain' (· ≤ ·) (s.audio_time :: l.map opTime) →
      (applyOps l s).current_audio.isSome = true ∧
      s.audio_time ≤ (applyOps l s).audio_time ∧
      ∀ now, (status now (applyOps l s)).1.audio_status ≠ "No audio received yet") := by
  constructor
  · intro hs hch
    have h := applyOps_frame_mono l s hs hch
    exact ⟨h.1, h.2, fun now => status_ne_noframes now _ h.1⟩
  · intro hs hch
    have h := applyOps_audio_mono l s hs hch
    exact ⟨h.1, h.2, fun now => status_ne_noaudio now _ h.1⟩

/-- Witness for C10: both slots set at times 1 and 2, then a frame upload
at time 5, an audio upload at time 6 and a status request at time 7. -/
theorem slot_once_set_stays_set_witness :
    (let sw : ServerState :=
      { current_frame := some [9], frame_time := 1, current_audio := some [8],
        audio_time := 2, clients_count := 0, audio_clients_count := 0 }
     let lw : List Op :=
      [Op.uploadFrame [3] 5, Op.uploadAudio [4] 6, Op.statusReq 7]
     (applyOps lw sw).current_frame.isSome = true ∧
     sw.frame_time ≤ (applyOps lw sw).frame_time ∧
     (status 8 (applyOps lw sw)).1.status ≠ "No frames received yet" ∧
     (applyOps lw sw).current_audio.isSome = true ∧
     sw.audio_time ≤ (applyOps lw sw).audio_time ∧
     (status 8 (applyOps lw sw)).1.audio_status ≠ "No audio received yet") := by
  have hv := (slot_once_set_stays_set
    { current_frame := some [9], frame_time := 1, current_audio := some [8],
      audio_time := 2, clients_count := 0, audio_clients_count := 0 }
    [Op.uploadFrame [3] 5, Op.uploadAudio [4] 6, Op.statusReq 7]).1
    rfl (by
      simp only [List.map_cons, List.map_nil, opTime, List.chain'_cons,
        List.chain'_singleton, and_true]
      decide)
  have ha := (slot_once_set_stays_set
    { current_frame := some [9], frame_time := 1, current_audio := some [8],
      audio_time := 2, clients_count := 0, audio_clients_count := 0 }
    [Op.uploadFrame [3] 5, Op.uploadAudio [4] 6, Op.statusReq 7]).2
    rfl (by
      simp only [List.map_cons, List.map_nil, opTime, List.chain'_cons,
        List.chain'_singleton, and_true]
      decide)
  exact ⟨hv.1, hv.2.1, hv.2.2 8, ha.1, ha.2.1, ha.2.2 8⟩

end Relay
